import Mathlib

/-!
Verification of the Telemetry Ingestion & Session State Engine of the
climbing-companion repository, as a shallow embedding of the Python source.

The embedding covers:
* the document store contents ( `Store` ): device, pairing, climbing-session,
  session-event, emergency-contact and user documents, with exactly the
  fields the engine reads and writes;
* `MQTTService.handle_telemetry` and its per-state handlers
  ( `_handle_session_start` / `_handle_session_active` / `_handle_session_end`
  / `_handle_session_incident` ) from src/services/mqtt_service.py;
* `MQTTService.handle_telegram_response` and `request_device_status`;
* `TelegramService._handle_check_status`, `_handle_status_check_timeout`,
  `_has_active_session`, `send_status_response` and `send_emergency_alert`
  from src/services/telegram_service.py;
* `register_device` (src/application/routes/device_routes.py) and
  `unregister_device` (src/application/auth_routes.py);
* an interleaving model of the race between the status-check timeout watcher
  and the device-response handler on the shared pending-request dict.

Conventions.  MongoDB documents are Lean structures; a field that the
pipeline may leave absent is an `Option`.  `find_one` is `List.find?`
over the collection in insertion order, and a query on a field that is
absent from a document does not match it (MongoDB semantics): the
`data.session_state` path queried by `_has_active_session` is therefore
modelled as an explicit `Option String` field `dataSessionState`, distinct
from the `profile.session_state` field (`profileState`) that the session
handlers write.  Timestamps carry no information used by any claim and are
modelled as presence flags where the code writes them.  Floating point
measurements are modelled as `Option Int` samples: the engine only moves
them around, never computes with them.
-/

/-- A `device` document: `_id` (set to the serial number on registration),
`profile.serial_number`, `data.status`. -/
structure DeviceDoc where
  docId : String
  serialNumber : String
  dataStatus : String
deriving DecidableEq, Repr

/-- A `device_pairing` document: `_id`, `data.user_id`, `data.device_serial`,
`data.pairing_status`. -/
structure PairingDoc where
  docId : String
  userId : String
  deviceSerial : String
  pairingStatus : String
deriving DecidableEq, Repr

/-- A `climbing_session` document.  `profile.session_state` is
`profileState`; the `data` section holds `session_id`, `user_id`,
`device_serial`, `start_alt`, `end_alt` and (only if some code path ever
wrote it, which the telemetry pipeline never does) `session_state`
(`dataSessionState`).  `endAtSet` records whether `data.end_at` has been
written. -/
structure SessionDoc where
  docId : String
  profileState : String
  dataSessionId : String
  dataUserId : String
  dataDeviceSerial : String
  dataSessionState : Option String
  startAlt : Option Int
  endAlt : Option Int
  endAtSet : Bool
deriving DecidableEq, Repr

/-- A `session_event` document: `data.session_id`, `data.device_serial`,
`data.alt`. -/
structure EventDoc where
  sessionId : String
  deviceSerial : String
  alt : Option Int
deriving DecidableEq, Repr

/-- An `emergency_contact` document: `profile.name`,
`profile.telegram_chat_id` (optional), `data.user_id` (optional),
`data.is_active`. -/
structure ContactDoc where
  name : String
  telegramChatId : Option String
  userId : Option String
  isActive : Bool
deriving DecidableEq, Repr

/-- A `user` document: `_id`, `profile.name`. -/
structure UserDoc where
  docId : String
  name : String
deriving DecidableEq, Repr

/-- Modelled from the spec: the Document Store collaborator (§6; the
repository's `DatabaseService`, src/services/database_service.py, is not
under src/).  Each collection is kept in insertion order; `create` appends,
`get`/`query` scan, `update` merges partial fields into the documents whose
`_id` matches.  The schema yaml files under config/ are likewise not under
src/; the document shapes follow the spec data model (§3) together with the
fields the src/ engine code reads and writes, so a field the pipeline
writes (such as `data.session_id`) persists, and a field no code path ever
writes (such as `data.session_state` on sessions created by the telemetry
pipeline, whose state lives under `profile.session_state`) is absent. -/
structure Store where
  devices : List DeviceDoc
  pairings : List PairingDoc
  sessions : List SessionDoc
  events : List EventDoc
  contacts : List ContactDoc
  users : List UserDoc
deriving DecidableEq, Repr

/-- Modelled from the spec: `update(kind, id, partialFields)` of the
Document Store (§6) for the `climbing_session` collection; `f` applies the
partial field updates passed at the call site. -/
def update_session (s : Store) (docId : String) (f : SessionDoc → SessionDoc) : Store :=
  { s with sessions := s.sessions.map fun d => if d.docId == docId then f d else d }

/-- Modelled from the spec: `update(kind, id, partialFields)` of the
Document Store (§6) for the `device_pairing` collection. -/
def update_pairing (s : Store) (docId : String) (f : PairingDoc → PairingDoc) : Store :=
  { s with pairings := s.pairings.map fun p => if p.docId == docId then f p else p }

/-- The `uuid.uuid4()` document-id generation of `DRFactory.create_dr`,
modelled as a deterministic id derived from the collection size. -/
def freshSessionDocId (s : Store) : String :=
  "session-doc-" ++ toString s.sessions.length

/-- The `uuid.uuid4()` document-id generation for new pairing documents. -/
def freshPairingDocId (s : Store) : String :=
  "pairing-doc-" ++ toString s.pairings.length

/-- An inbound telemetry / status-response payload: the keys the engine
reads with `data.get(...)`.  A key absent from the JSON object is `none`. -/
structure Telemetry where
  session_state : Option String
  session_id : Option String
  alt : Option Int
  temp : Option Int
  humidity : Option Int
  latitude : Option Int
  longitude : Option Int
  chat_id : Option String
deriving DecidableEq, Repr

/-- Embeds `MQTTService._find_device_by_serial`: `find_one` on
`profile.serial_number`. -/
def find_device_by_serial (serial : String) (s : Store) : Option DeviceDoc :=
  s.devices.find? fun d => d.serialNumber == serial

/-- Embeds `MQTTService._get_user_from_device`: `find_one` on
`data.device_serial` + `data.pairing_status == "active"`, returning
`data.user_id`. -/
def get_user_from_device (serial : String) (s : Store) : Option String :=
  (s.pairings.find? fun p =>
    p.deviceSerial == serial && p.pairingStatus == "active").map (·.userId)

/-- Embeds `MQTTService._find_session_by_id`: `find_one` on `data.session_id`. -/
def find_session_by_id (sid : String) (s : Store) : Option SessionDoc :=
  s.sessions.find? fun d => d.dataSessionId == sid

/-- Embeds `MQTTService._handle_session_start`: create a `climbing_session`
(state `START` under `profile.session_state`, start fields from the
payload) and one `session_event`.  No check for a pre-existing session
with the same `session_id` is made. -/
def handle_session_start (serial uid sid : String) (data : Telemetry) (s : Store) : Store :=
  let sess : SessionDoc :=
    { docId := freshSessionDocId s
      profileState := "START"
      dataSessionId := sid
      dataUserId := uid
      dataDeviceSerial := serial
      dataSessionState := none
      startAlt := data.alt
      endAlt := none
      endAtSet := false }
  let ev : EventDoc := { sessionId := sid, deviceSerial := serial, alt := data.alt }
  { s with sessions := s.sessions ++ [sess], events := s.events ++ [ev] }

/-- Embeds `MQTTService._handle_session_active`: if no session with this id
exists, log and return (no event is created); otherwise set
`profile.session_state` to `ACTIVE` unless it already is, then create one
`session_event`. -/
def handle_session_active (serial sid : String) (data : Telemetry) (s : Store) : Store :=
  match find_session_by_id sid s with
  | none => s
  | some sess =>
    let s1 := if sess.profileState != "ACTIVE" then
        update_session s sess.docId fun d => { d with profileState := "ACTIVE" }
      else s
    { s1 with events := s1.events ++ [⟨sid, serial, data.alt⟩] }

/-- Embeds `MQTTService._handle_session_end`: if no session with this id exists,
log and return; otherwise set `profile.session_state` to `END`, write
`data.end_alt` and `data.end_at`, then create one `session_event`. -/
def handle_session_end (serial sid : String) (data : Telemetry) (s : Store) : Store :=
  match find_session_by_id sid s with
  | none => s
  | some sess =>
    let s1 := update_session s sess.docId fun d =>
      { d with profileState := "END", endAlt := data.alt, endAtSet := true }
    { s1 with events := s1.events ++ [⟨sid, serial, data.alt⟩] }

/-- Embeds `MQTTService._handle_session_incident`: if no session with this id
exists, log and return; otherwise set `profile.session_state` to
`INCIDENT` and create one `session_event`.  The subsequent
`send_emergency_alert` call returns a delivery report that is only logged;
it does not mutate the document store, so it is modelled separately. -/
def handle_session_incident (serial sid : String) (data : Telemetry) (s : Store) : Store :=
  match find_session_by_id sid s with
  | none => s
  | some sess =>
    let s1 := update_session s sess.docId fun d => { d with profileState := "INCIDENT" }
    { s1 with events := s1.events ++ [⟨sid, serial, data.alt⟩] }

/-- Embeds `MQTTService.handle_telemetry`: reject payloads with a missing or
empty (Python-falsy) `session_state` or `session_id`; resolve the device
by serial, then its owner through the active pairing; dispatch on the
reported state; unknown states are logged and discarded.  Every failing
lookup returns with the store untouched and no exception reaches the
transport (the Python body is wrapped in a catch-all handler). -/
def handle_telemetry (serial : String) (data : Telemetry) (s : Store) : Store :=
  match data.session_state, data.session_id with
  | some st, some sid =>
    if st.isEmpty || sid.isEmpty then s
    else
      match find_device_by_serial serial s with
      | none => s
      | some _ =>
        match get_user_from_device serial s with
        | none => s
        | some uid =>
          if st == "START" then handle_session_start serial uid sid data s
          else if st == "ACTIVE" then handle_session_active serial sid data s
          else if st == "END" then handle_session_end serial sid data s
          else if st == "INCIDENT" then handle_session_incident serial sid data s
          else s
  | _, _ => s

/-! ## Telegram side: status-check protocol, alerts -/

/-- One entry of `TelegramService.pending_status_checks`, keyed by the
string `chat_id ++ "_" ++ user_id` (the stored timestamp carries no
information any claim uses). -/
structure PendingEntry where
  chatId : String
  userId : String
  userName : String
deriving DecidableEq, Repr

/-- The in-memory `pending_status_checks` dict, in insertion order with
unique keys. -/
abbrev PendingMap := List (String × PendingEntry)

/-- The user-facing chat messages the engine can send, abstracted from
their Markdown text. -/
inductive Msg
  | notRegistered
  | missingUserId
  | userNotFound
  | noActiveDevice
  | requesting
  | requestFailed
  | mqttUnavailable
  | noActiveSession
  | deviceUnreachable
  | statusReply
deriving DecidableEq, Repr

/-- Embeds `TelegramService._get_user_info`: `find_one` on `_id` in the user
collection. -/
def get_user_info (uid : String) (s : Store) : Option UserDoc :=
  s.users.find? fun u => u.docId == uid

/-- Embeds `TelegramService._has_active_session`: `find_one` on
`data.user_id` + `data.session_state` in `["ACTIVE", "START"]`.  Note the
query path is the `data` section, not `profile.session_state`. -/
def has_active_session (uid : String) (s : Store) : Bool :=
  (s.sessions.find? fun d =>
    d.dataUserId == uid &&
      (d.dataSessionState == some "ACTIVE" || d.dataSessionState == some "START")).isSome

/-- Embeds `TelegramService._handle_status_check_timeout`, from the instant the
10-second deadline elapses: if the key is no longer pending, do nothing;
otherwise remove it, then send the no-active-session message if
`_has_active_session` is false and the device-unreachable message if it is
true.  Returns the new pending dict and the sent messages as
`(chat_id, message)` pairs. -/
def handle_status_check_timeout (chatId uid : String) (pend : PendingMap) (s : Store) :
    PendingMap × List (String × Msg) :=
  let key := chatId ++ "_" ++ uid
  if (pend.find? fun kv => kv.1 == key).isNone then (pend, [])
  else
    let pend1 := pend.filter fun kv => kv.1 != key
    if !has_active_session uid s then (pend1, [(chatId, Msg.noActiveSession)])
    else (pend1, [(chatId, Msg.deviceUnreachable)])

/-- Embeds `TelegramService.send_status_response`: when a `user_id` is supplied,
delete the single pending entry for `chat_id ++ "_" ++ user_id` if present
(logging either way); when it is not, delete every pending entry whose key
starts with `chat_id ++ "_"`.  In both cases the formatted status reply is
then sent to the chat unconditionally. -/
def send_status_response (chatId : String) (userId : Option String) (pend : PendingMap) :
    PendingMap × List (String × Msg) :=
  let pend1 := match userId with
    | some uid => pend.filter fun kv => kv.1 != chatId ++ "_" ++ uid
    | none => pend.filter fun kv => !kv.1.startsWith (chatId ++ "_")
  (pend1, [(chatId, Msg.statusReply)])

/-- Embeds `MQTTService.handle_telegram_response`: drop the payload when its
`chat_id` is missing or falsy, or when no Telegram service is wired;
otherwise forward to `send_status_response` — without passing a
`user_id`. -/
def handle_telegram_response (data : Telemetry) (tgAvailable : Bool) (pend : PendingMap) :
    PendingMap × List (String × Msg) :=
  match data.chat_id with
  | none => (pend, [])
  | some c =>
    if c.isEmpty then (pend, [])
    else if tgAvailable then send_status_response c none pend
    else (pend, [])

/-- Embeds `TelegramService._find_emergency_contact_by_chat_id`: `find_one` on
`profile.telegram_chat_id`. -/
def find_emergency_contact_by_chat_id (chatId : String) (s : Store) : Option ContactDoc :=
  s.contacts.find? fun c => c.telegramChatId == some chatId

/-- Embeds `TelegramService._find_user_active_device`: `find_one` for an active
pairing of the user, then `find_one` for the paired device by `_id` with
`data.status == "active"`. -/
def find_user_active_device (uid : String) (s : Store) : Option DeviceDoc :=
  match s.pairings.find? fun p => p.userId == uid && p.pairingStatus == "active" with
  | none => none
  | some p => s.devices.find? fun d => d.docId == p.deviceSerial && d.dataStatus == "active"

/-- Outcome of `MQTTService.request_device_status` as seen by its caller:
`False` when the client is not connected or `client.publish` does not
return `MQTT_ERR_SUCCESS`, `True` on a successful publish. -/
structure MqttCtx where
  available : Bool
  connected : Bool
  publishOk : Bool
deriving DecidableEq, Repr

/-- Embeds `MQTTService.request_device_status`: fails when not connected,
otherwise reports the publish result. -/
def request_device_status (ctx : MqttCtx) : Bool :=
  ctx.connected && ctx.publishOk

/-- The Telegram-side mutable state touched by `_handle_check_status`:
the pending dict, the messages sent so far, and the timeout watcher
threads started (identified by their `(chat_id, user_id)` arguments). -/
structure TgState where
  pending : PendingMap
  sent : List (String × Msg)
  timers : List (String × String)
deriving DecidableEq, Repr

/-- Python dict assignment `pending_status_checks[key] = entry`. -/
def dictInsert (pend : PendingMap) (key : String) (e : PendingEntry) : PendingMap :=
  if (pend.find? fun kv => kv.1 == key).isSome then
    pend.map fun kv => if kv.1 == key then (key, e) else kv
  else pend ++ [(key, e)]

/-- Embeds `TelegramService._handle_check_status`: resolve the requester to an
emergency contact, the contact to a user, the user to an active device;
send the processing message; publish the status request over MQTT; on
publish failure report synchronously, on success register the pending
entry and start the timeout watcher. -/
def handle_check_status (chatId : String) (ctx : MqttCtx) (s : Store) (st : TgState) :
    TgState :=
  match find_emergency_contact_by_chat_id chatId s with
  | none => { st with sent := st.sent ++ [(chatId, Msg.notRegistered)] }
  | some contact =>
    match contact.userId with
    | none => { st with sent := st.sent ++ [(chatId, Msg.missingUserId)] }
    | some uid =>
      if uid.isEmpty then { st with sent := st.sent ++ [(chatId, Msg.missingUserId)] }
      else
        match get_user_info uid s with
        | none => { st with sent := st.sent ++ [(chatId, Msg.userNotFound)] }
        | some user =>
          match find_user_active_device uid s with
          | none => { st with sent := st.sent ++ [(chatId, Msg.noActiveDevice)] }
          | some _ =>
            let st1 := { st with sent := st.sent ++ [(chatId, Msg.requesting)] }
            if ctx.available then
              if request_device_status ctx then
                { st1 with
                  pending := dictInsert st1.pending (chatId ++ "_" ++ uid)
                    ⟨chatId, uid, user.name⟩
                  timers := st1.timers ++ [(chatId, uid)] }
              else { st1 with sent := st1.sent ++ [(chatId, Msg.requestFailed)] }
            else { st1 with sent := st1.sent ++ [(chatId, Msg.mqttUnavailable)] }

/-- Embeds `TelegramService._get_emergency_contacts`: all contacts with
`data.user_id` equal to the user and `data.is_active` true. -/
def get_emergency_contacts (uid : String) (s : Store) : List ContactDoc :=
  s.contacts.filter fun c => c.userId == some uid && c.isActive

/-- The delivery report returned by `send_emergency_alert`, with the
free-text `message` field abstracted to a tag. -/
inductive ReportMsg
  | userNotFound
  | noContactsConfigured
  | sentSummary
deriving DecidableEq, Repr

/-- The `send_emergency_alert` result dict: `status`, `message`, `sent_count`,
`total_contacts` (absent, modelled 0, on the two early returns), and
`failed_contacts`. -/
structure AlertReport where
  status : String
  message : ReportMsg
  sentCount : Nat
  totalContacts : Nat
  failedContacts : List String
deriving DecidableEq, Repr

/-- Embeds `TelegramService.send_emergency_alert`: error report when the user is
unknown; a warning no-recipients report when the user has no active
emergency contacts; otherwise one best-effort send per contact
(`sendOk` gives each chat id's transport outcome), counting successes and
collecting failures (a missing or empty `telegram_chat_id` counts as a
failure for that contact without aborting the rest). -/
def send_emergency_alert (uid : String) (sendOk : String → Bool) (s : Store) : AlertReport :=
  match get_user_info uid s with
  | none =>
    { status := "error", message := ReportMsg.userNotFound
      sentCount := 0, totalContacts := 0, failedContacts := [] }
  | some _ =>
    let contacts := get_emergency_contacts uid s
    if contacts.isEmpty then
      { status := "warning", message := ReportMsg.noContactsConfigured
        sentCount := 0, totalContacts := 0, failedContacts := [] }
    else
      let step := fun (acc : Nat × List String) (c : ContactDoc) =>
        match c.telegramChatId with
        | none => (acc.1, acc.2 ++ [c.name])
        | some tcid =>
          if tcid.isEmpty then (acc.1, acc.2 ++ [c.name])
          else if sendOk tcid then (acc.1 + 1, acc.2)
          else (acc.1, acc.2 ++ [c.name])
      let tally := contacts.foldl step (0, [])
      { status := if 0 < tally.1 then "success" else "error"
        message := ReportMsg.sentSummary
        sentCount := tally.1
        totalContacts := contacts.length
        failedContacts := tally.2 }

/-! ## Device registration routes -/

/-- Outcome of the `register-device` route, abstracted from the redirect
messages. -/
inductive RegResult
  | missingSerial
  | alreadyRegisteredSelf
  | reRegistered
  | alreadyRegisteredOther
  | registered
deriving DecidableEq, Repr

/-- The fall-through tail of `register_device`: create the device document
(with `_id` set to the serial, status `inactive`) when it does not exist
yet, then create a fresh active pairing. -/
def create_device_and_pairing (uid serial : String) (createDevice : Bool) (s : Store) :
    Store × RegResult :=
  let s1 := if createDevice then
      { s with devices := s.devices ++ [⟨serial, serial, "inactive"⟩] }
    else s
  let pairing : PairingDoc :=
    { docId := freshPairingDocId s1, userId := uid, deviceSerial := serial
      pairingStatus := "active" }
  ({ s1 with pairings := s1.pairings ++ [pairing] }, RegResult.registered)

/-- Embeds `register_device` (src/application/routes/device_routes.py): when the
device document exists, check in order (1) an active pairing of this user
(reject as already registered), (2) an unpaired pairing of this user
(reactivate it and return), (3) an active pairing of any user (reject as
registered to another user); otherwise fall through to device/pairing
creation. -/
def register_device (uid serial : String) (s : Store) : Store × RegResult :=
  if serial.isEmpty then (s, RegResult.missingSerial)
  else
    match find_device_by_serial serial s with
    | some _ =>
      if (s.pairings.find? fun p =>
          p.deviceSerial == serial && p.userId == uid &&
            p.pairingStatus == "active").isSome then
        (s, RegResult.alreadyRegisteredSelf)
      else
        match s.pairings.find? fun p =>
            p.deviceSerial == serial && p.userId == uid &&
              p.pairingStatus == "unpaired" with
        | some p =>
          (update_pairing s p.docId fun q => { q with pairingStatus := "active" },
           RegResult.reRegistered)
        | none =>
          if (s.pairings.find? fun p =>
              p.deviceSerial == serial && p.pairingStatus == "active").isSome then
            (s, RegResult.alreadyRegisteredOther)
          else create_device_and_pairing uid serial false s
    | none => create_device_and_pairing uid serial true s

/-- Embeds `unregister_device` (src/application/auth_routes.py): find the active
pairing of this user for the serial; when found, set its
`data.pairing_status` to `unpaired`. -/
def unregister_device (uid serial : String) (s : Store) : Store × Bool :=
  match s.pairings.find? fun p =>
      p.deviceSerial == serial && p.userId == uid && p.pairingStatus == "active" with
  | none => (s, false)
  | some p =>
    (update_pairing s p.docId fun q => { q with pairingStatus := "unpaired" }, true)

/-- Number of pairing documents with `pairing_status == "active"` for a
device serial. -/
def activePairingCount (serial : String) (s : Store) : Nat :=
  s.pairings.countP fun p => p.deviceSerial == serial && p.pairingStatus == "active"

/-! ## The response / timeout race on the pending dict

`_handle_status_check_timeout` runs on its own watcher thread and
`send_status_response` on the MQTT callback thread; both act on the shared
`pending_status_checks` dict for the same key K.  Each Python bytecode-level
access to the dict is one atomic step; local control flow between accesses
can interleave arbitrarily.  The timeout thread performs: (1) the `in`
membership test (returning early when absent), (2) the `del` (raising
`KeyError` — swallowed by the surrounding handler, ending the thread with
no reply — if the key vanished in between), (3) the reply send.  The
response thread performs: (1) a guarded delete of the key (never raising,
and proceeding whether or not the key was present), (2) the reply send —
unconditionally. -/

/-- Program counter of the timeout watcher thread. -/
inductive TPc
  | tCheck
  | tDel
  | tSend
  | tDone
deriving DecidableEq, Repr

/-- Program counter of the device-response handler thread. -/
inductive RPc
  | rDel
  | rSend
  | rDone
deriving DecidableEq, Repr

/-- Shared and thread-local state of the race for one key K: whether K is
still in the pending dict, which thread has removed it, which thread has
sent its reply, and both program counters. -/
structure RaceConf where
  pendingK : Bool
  tRemoved : Bool
  rRemoved : Bool
  tReplied : Bool
  rReplied : Bool
  tpc : TPc
  rpc : RPc
deriving DecidableEq, Repr

/-- One step of the timeout watcher (`_handle_status_check_timeout`). -/
def tStep (c : RaceConf) : RaceConf :=
  match c.tpc with
  | TPc.tCheck =>
    if c.pendingK then { c with tpc := TPc.tDel } else { c with tpc := TPc.tDone }
  | TPc.tDel =>
    if c.pendingK then
      { c with pendingK := false, tRemoved := true, tpc := TPc.tSend }
    else
      { c with tpc := TPc.tDone }
  | TPc.tSend => { c with tReplied := true, tpc := TPc.tDone }
  | TPc.tDone => c

/-- One step of the response handler (`send_status_response`): the delete
is guarded, and the reply is sent regardless of whether the entry was
still present. -/
def rStep (c : RaceConf) : RaceConf :=
  match c.rpc with
  | RPc.rDel =>
    if c.pendingK then
      { c with pendingK := false, rRemoved := true, rpc := RPc.rSend }
    else { c with rpc := RPc.rSend }
  | RPc.rSend => { c with rReplied := true, rpc := RPc.rDone }
  | RPc.rDone => c

/-- Run a schedule: `true` steps the timeout thread, `false` the response
thread; scheduling a finished thread is a no-op. -/
def raceRun (c : RaceConf) : List Bool → RaceConf
  | [] => c
  | b :: rest => raceRun (if b then tStep c else rStep c) rest

/-- Initial configuration: the PendingStatusRequest for K is registered
and both handlers have been triggered. -/
def raceInit : RaceConf :=
  { pendingK := true, tRemoved := false, rRemoved := false
    tReplied := false, rReplied := false, tpc := TPc.tCheck, rpc := RPc.rDel }

/-- The schedule in which the timeout watcher runs to completion at the
deadline before the device response is processed. -/
def timeoutFirstSchedule : List Bool := [true, true, true, false, false]

/-! ## Concrete scenario inputs -/

/-- A telemetry payload carrying only a state, a session id and an
altitude sample. -/
def tmsg (st sid : String) (a : Option Int) : Telemetry :=
  { session_state := some st, session_id := some sid, alt := a
    temp := none, humidity := none, latitude := none, longitude := none
    chat_id := none }

/-- Scenario store: device SN1 exists, actively paired to user u1, who has
emergency contact Carla on chat7; no sessions or events yet. -/
def pairedStore : Store :=
  { devices := [⟨"SN1", "SN1", "active"⟩]
    pairings := [⟨"pairing-doc-0", "u1", "SN1", "active"⟩]
    sessions := []
    events := []
    contacts := [⟨"Carla", some "chat7", some "u1", true⟩]
    users := [⟨"u1", "Alice"⟩] }

/-- The store after the device reported START for session s1: user u1 now
has a ClimbingSession in state START. -/
def c1Store : Store := handle_telemetry "SN1" (tmsg "START" "s1" (some 100)) pairedStore

/-- The pending dict at the deadline: Carla's status-check request for u1
is still unanswered. -/
def c1Pending : PendingMap := [("chat7_u1", ⟨"chat7", "u1", "Alice"⟩)]

/-- Registration scenario, step 1: user A registers device SN1 into an
empty store. -/
def regStep1 : Store := (register_device "userA" "SN1" ⟨[], [], [], [], [], []⟩).1

/-- Step 2: user A unregisters SN1 (the pairing becomes `unpaired`). -/
def regStep2 : Store := (unregister_device "userA" "SN1" regStep1).1

/-- Step 3: user B registers SN1 (a second pairing, active). -/
def regStep3 : Store := (register_device "userB" "SN1" regStep2).1

/-- Step 4: user A registers SN1 again, hitting the reactivation branch. -/
def regStep4 : Store := (register_device "userA" "SN1" regStep3).1

/-- Store with a paired, active device SN2 for u2 and no sessions at
all. -/
def c7Store : Store :=
  { devices := [⟨"SN2", "SN2", "active"⟩]
    pairings := [⟨"pairing-doc-0", "u2", "SN2", "active"⟩]
    sessions := [], events := [], contacts := [], users := [] }

/-- Store for the no-op repeated ACTIVE witness: session s5 of u1 already
ACTIVE on the paired device SN1. -/
def activeSessStore : Store :=
  { pairedStore with sessions :=
      [⟨"session-doc-0", "ACTIVE", "s5", "u1", "SN1", none, some 40, none, false⟩] }

/-- Store whose only pairing for SN7 is `unpaired` (no active pairing). -/
def unpairedStore : Store :=
  { devices := [⟨"SN7", "SN7", "active"⟩]
    pairings := [⟨"pairing-doc-0", "u7", "SN7", "unpaired"⟩]
    sessions := [⟨"session-doc-0", "ACTIVE", "s7", "u7", "SN7", none, some 1, none, false⟩]
    events := [], contacts := [], users := [⟨"u7", "Gina"⟩] }

/-- Store for the no-recipients alert witness: user u1 exists but their
only emergency contact is inactive. -/
def inactiveContactStore : Store :=
  { devices := [], pairings := [], sessions := [], events := []
    contacts := [⟨"Bob", some "chat8", some "u1", false⟩]
    users := [⟨"u1", "Alice"⟩] }

/-- A pending dict with two concurrent requests by chat7 (for users u1 and
u2) and one by chat8. -/
def threePending : PendingMap :=
  [("chat7_u1", ⟨"chat7", "u1", "Alice"⟩),
   ("chat7_u2", ⟨"chat7", "u2", "Ben"⟩),
   ("chat8_u3", ⟨"chat8", "u3", "Cleo"⟩)]

/-- A device status response payload addressed to chat7 (as the device
echoes it), with no user id — the MQTT handler never forwards one. -/
def chat7Response : Telemetry :=
  { session_state := some "ACTIVE", session_id := some "s1", alt := some 120
    temp := some 18, humidity := some 40, latitude := some 45, longitude := some 11
    chat_id := some "chat7" }

/-! ## Helper lemmas -/

/-- Appending a matching session behind non-matching ones: `find_one` by
session id returns it. -/
theorem find?_sid_append_single (L : List SessionDoc) (c : SessionDoc) (sid : String)
    (hL : ∀ d ∈ L, (d.dataSessionId == sid) = false) (hc : c.dataSessionId = sid) :
    (L ++ [c]).find? (fun d => d.dataSessionId == sid) = some c := by
  rw [List.find?_append, List.find?_eq_none.mpr, Option.none_or]
  · simp [List.find?, hc]
  · intro d hd
    simp [hL d hd]

/-- A session-id-preserving update keeps a list free of a session id. -/
theorem no_sid_of_map (L : List SessionDoc) (f : SessionDoc → SessionDoc) (sid : String)
    (hf : ∀ d, (f d).dataSessionId = d.dataSessionId)
    (hL : ∀ d ∈ L, (d.dataSessionId == sid) = false) :
    ∀ d ∈ L.map f, (d.dataSessionId == sid) = false := by
  intro d hd
  obtain ⟨a, ha, rfl⟩ := List.mem_map.mp hd
  rw [hf a]
  exact hL a ha

/-- An ACTIVE telemetry message when the one session carrying its id is
the last-inserted `c`, not yet in state ACTIVE: the session is set to
ACTIVE in place and one event is appended. -/
theorem handle_telemetry_active_updates (serial uid sid : String) (m : Telemetry)
    (s : Store) (L : List SessionDoc) (c : SessionDoc)
    (hs : m.session_state = some "ACTIVE") (hi : m.session_id = some sid)
    (hne : sid.isEmpty = false)
    (hdev : (find_device_by_serial serial s).isSome = true)
    (hpair : get_user_from_device serial s = some uid)
    (hsplit : s.sessions = L ++ [c])
    (hL : ∀ d ∈ L, (d.dataSessionId == sid) = false)
    (hc : c.dataSessionId = sid)
    (hcp : (c.profileState != "ACTIVE") = true) :
    handle_telemetry serial m s
      = { s with
          sessions := L.map (fun d =>
              if d.docId == c.docId then { d with profileState := "ACTIVE" } else d)
            ++ [{ c with profileState := "ACTIVE" }]
          events := s.events ++ [⟨sid, serial, m.alt⟩] } := by
  obtain ⟨dv, hdv⟩ := Option.isSome_iff_exists.mp hdev
  have hcond : (("ACTIVE" : String).isEmpty || sid.isEmpty) = false := by rw [hne]; rfl
  have hfind : find_session_by_id sid s = some c := by
    unfold find_session_by_id
    rw [hsplit]
    exact find?_sid_append_single L c sid hL hc
  unfold handle_telemetry
  simp only [hs, hi, hcond, Bool.false_eq_true, if_false, hdv, hpair,
    show (("ACTIVE" : String) == "START") = false from rfl,
    show (("ACTIVE" : String) == "ACTIVE") = true from rfl, if_true]
  unfold handle_session_active
  rw [hfind]
  simp only [hcp, if_true, update_session, hsplit, List.map_append]
  simp

/-- An ACTIVE telemetry message when the one session carrying its id is
already ACTIVE: a no-op transition, only the event is appended. -/
theorem handle_telemetry_active_noop (serial uid sid : String) (m : Telemetry)
    (s : Store) (L : List SessionDoc) (c : SessionDoc)
    (hs : m.session_state = some "ACTIVE") (hi : m.session_id = some sid)
    (hne : sid.isEmpty = false)
    (hdev : (find_device_by_serial serial s).isSome = true)
    (hpair : get_user_from_device serial s = some uid)
    (hsplit : s.sessions = L ++ [c])
    (hL : ∀ d ∈ L, (d.dataSessionId == sid) = false)
    (hc : c.dataSessionId = sid)
    (hcp : c.profileState = "ACTIVE") :
    handle_telemetry serial m s
      = { s with events := s.events ++ [⟨sid, serial, m.alt⟩] } := by
  obtain ⟨dv, hdv⟩ := Option.isSome_iff_exists.mp hdev
  have hcond : (("ACTIVE" : String).isEmpty || sid.isEmpty) = false := by rw [hne]; rfl
  have hfind : find_session_by_id sid s = some c := by
    unfold find_session_by_id
    rw [hsplit]
    exact find?_sid_append_single L c sid hL hc
  unfold handle_telemetry
  simp only [hs, hi, hcond, Bool.false_eq_true, if_false, hdv, hpair,
    show (("ACTIVE" : String) == "START") = false from rfl,
    show (("ACTIVE" : String) == "ACTIVE") = true from rfl, if_true]
  unfold handle_session_active
  rw [hfind]
  simp only [hcp, show (("ACTIVE" : String) != "ACTIVE") = false from rfl,
    Bool.false_eq_true, if_false]

/-- An END telemetry message when the one session carrying its id is the
last-inserted `c`: the session is closed in place (state END, end
altitude from the payload, end timestamp written) and one event is
appended. -/
theorem handle_telemetry_end_updates (serial uid sid : String) (m : Telemetry)
    (s : Store) (L : List SessionDoc) (c : SessionDoc)
    (hs : m.session_state = some "END") (hi : m.session_id = some sid)
    (hne : sid.isEmpty = false)
    (hdev : (find_device_by_serial serial s).isSome = true)
    (hpair : get_user_from_device serial s = some uid)
    (hsplit : s.sessions = L ++ [c])
    (hL : ∀ d ∈ L, (d.dataSessionId == sid) = false)
    (hc : c.dataSessionId = sid) :
    handle_telemetry serial m s
      = { s with
          sessions := L.map (fun d =>
              if d.docId == c.docId then
                { d with profileState := "END", endAlt := m.alt, endAtSet := true }
              else d)
            ++ [{ c with profileState := "END", endAlt := m.alt, endAtSet := true }]
          events := s.events ++ [⟨sid, serial, m.alt⟩] } := by
  obtain ⟨dv, hdv⟩ := Option.isSome_iff_exists.mp hdev
  have hcond : (("END" : String).isEmpty || sid.isEmpty) = false := by rw [hne]; rfl
  have hfind : find_session_by_id sid s = some c := by
    unfold find_session_by_id
    rw [hsplit]
    exact find?_sid_append_single L c sid hL hc
  unfold handle_telemetry
  simp only [hs, hi, hcond, Bool.false_eq_true, if_false, hdv, hpair,
    show (("END" : String) == "START") = false from rfl,
    show (("END" : String) == "ACTIVE") = false from rfl,
    show (("END" : String) == "END") = true from rfl, if_true]
  unfold handle_session_end
  rw [hfind]
  simp only [update_session, hsplit, List.map_append]
  simp

/-! ## Claims -/

/-- C1.  The spec requires the "device unreachable" message for a user
with a session in START or ACTIVE whose device never answers; the code
sends the "no active session" message instead, because
`_has_active_session` queries `data.session_state` while the session
handlers maintain the state under `profile.session_state`.  Evaluated at
the failing input: u1's session s1 is in state START, yet the timeout
handler replies `noActiveSession`. -/
theorem timeout_sends_no_active_session_despite_start_session :
    ((find_session_by_id "s1" c1Store).map fun d => (d.profileState, d.dataUserId))
        = some ("START", "u1")
    ∧ has_active_session "u1" c1Store = false
    ∧ (handle_status_check_timeout "chat7" "u1" c1Pending c1Store).2
        = [("chat7", Msg.noActiveSession)] := by
  exact ⟨rfl, rfl, rfl⟩

/-- C2.  Evaluation of the claimed invariant at the violating operation
sequence: A registers SN1, A unregisters, B registers, A registers again.
The reactivation branch of `register_device` runs before the
registered-to-another-user check, so the final store holds two `active`
pairings for SN1 (A's reactivated one and B's). -/
theorem reregistration_breaks_unique_active_pairing :
    activePairingCount "SN1" regStep1 = 1
    ∧ activePairingCount "SN1" regStep2 = 0
    ∧ activePairingCount "SN1" regStep3 = 1
    ∧ (regStep4.pairings.map fun p => (p.userId, p.pairingStatus))
        = [("userA", "active"), ("userB", "active")]
    ∧ activePairingCount "SN1" regStep4 = 2 := by
  exact ⟨rfl, rfl, rfl, rfl, rfl⟩

/-- C3.  Evaluation of the race at the failing schedule: the timeout
watcher runs to completion at the deadline (membership test, delete,
timeout reply), then the device response is processed — and
`send_status_response` still sends the status reply even though the
pending entry is gone, so both handlers reply, violating the
exactly-one-reply requirement. -/
theorem timeout_then_response_replies_twice :
    (raceRun raceInit timeoutFirstSchedule).tReplied = true
    ∧ (raceRun raceInit timeoutFirstSchedule).rReplied = true
    ∧ (raceRun raceInit timeoutFirstSchedule).tRemoved = true
    ∧ (raceRun raceInit timeoutFirstSchedule).rRemoved = false := by
  exact ⟨rfl, rfl, rfl, rfl⟩

/-- C7 counterexample.  A well-formed ACTIVE telemetry message for a
paired device whose session id has no ClimbingSession creates no
SessionEvent at all, refuting "every valid telemetry message produces
exactly one SessionEvent". -/
theorem active_without_session_creates_no_event :
    (find_device_by_serial "SN2" c7Store).isSome = true
    ∧ get_user_from_device "SN2" c7Store = some "u2"
    ∧ (handle_telemetry "SN2" (tmsg "ACTIVE" "s9" (some 5)) c7Store).events.length = 0 := by
  exact ⟨rfl, rfl, rfl⟩

/-- C5.  Telemetry for a device serial with no active pairing is
discarded whatever its session state: the store (sessions, events,
everything) is returned unchanged and no error reaches the transport
(the handler is total). -/
theorem unpaired_telemetry_is_discarded (serial : String) (data : Telemetry) (s : Store)
    (hnopair : ∀ p ∈ s.pairings, ¬(p.deviceSerial = serial ∧ p.pairingStatus = "active")) :
    handle_telemetry serial data s = s := by
  have huser : get_user_from_device serial s = none := by
    unfold get_user_from_device
    rw [List.find?_eq_none.mpr]
    · rfl
    · intro p hp hcontra
      simp only [Bool.and_eq_true, beq_iff_eq] at hcontra
      exact hnopair p hp hcontra
  unfold handle_telemetry
  cases hss : data.session_state with
  | none => rfl
  | some st =>
    cases hsi : data.session_id with
    | none => rfl
    | some sid =>
      by_cases hemp : (st.isEmpty || sid.isEmpty) = true
      · simp [hemp]
      · simp only [Bool.not_eq_true] at hemp
        simp only [hemp, if_false]
        cases hdev : find_device_by_serial serial s with
        | none => rfl
        | some d => simp [huser]

/-- C5 witness: an ACTIVE message for SN7, whose only pairing is
`unpaired`, leaves the store untouched. -/
theorem unpaired_telemetry_is_discarded_witness :
    handle_telemetry "SN7" (tmsg "ACTIVE" "s7" (some 2)) unpairedStore = unpairedStore := by
  exact unpaired_telemetry_is_discarded "SN7" (tmsg "ACTIVE" "s7" (some 2)) unpairedStore
    (by decide)

/-- C8.  An INCIDENT dispatch for a user with zero active emergency
contacts returns the no-recipients delivery report (`warning`,
`sent_count` 0) for every transport outcome function, and returns rather
than raising. -/
theorem no_contacts_alert_returns_no_recipients (uid : String) (sendOk : String → Bool)
    (s : Store) (u : UserDoc)
    (hu : get_user_info uid s = some u)
    (hnoc : get_emergency_contacts uid s = []) :
    send_emergency_alert uid sendOk s
      = { status := "warning", message := ReportMsg.noContactsConfigured
          sentCount := 0, totalContacts := 0, failedContacts := [] } := by
  unfold send_emergency_alert
  rw [hu, hnoc]
  rfl

/-- C8 witness: user u1 exists but their only contact is inactive, so the
alert returns the no-recipients report. -/
theorem no_contacts_alert_returns_no_recipients_witness :
    send_emergency_alert "u1" (fun _ => true) inactiveContactStore
      = { status := "warning", message := ReportMsg.noContactsConfigured
          sentCount := 0, totalContacts := 0, failedContacts := [] } := by
  exact no_contacts_alert_returns_no_recipients "u1" (fun _ => true) inactiveContactStore
    ⟨"u1", "Alice"⟩ rfl rfl

/-- C9.  A START message for a session id that already has a
ClimbingSession creates another one with the same `session_id`: the
number of sessions carrying that id grows by one, with no pre-existence
check. -/
theorem start_creates_duplicate_session (serial uid sid : String) (data : Telemetry) (s : Store)
    (hst : data.session_state = some "START") (hsid : data.session_id = some sid)
    (hne : sid.isEmpty = false)
    (hdev : (find_device_by_serial serial s).isSome = true)
    (hpair : get_user_from_device serial s = some uid)
    (_hexists : 0 < s.sessions.countP fun d => d.dataSessionId == sid) :
    (handle_telemetry serial data s).sessions.countP (fun d => d.dataSessionId == sid)
      = s.sessions.countP (fun d => d.dataSessionId == sid) + 1 := by
  obtain ⟨d, hd⟩ := Option.isSome_iff_exists.mp hdev
  have hcond : ("START".isEmpty || sid.isEmpty) = false := by rw [hne]; rfl
  unfold handle_telemetry
  simp only [hst, hsid, hcond, Bool.false_eq_true, if_false, hd, hpair]
  simp [handle_session_start, List.countP_append]

/-- C9 witness: SN1 is paired and session s1 already exists in c1Store;
a second START for s1 yields two sessions with that id. -/
theorem start_creates_duplicate_session_witness :
    0 < c1Store.sessions.countP (fun d => d.dataSessionId == "s1")
    ∧ (handle_telemetry "SN1" (tmsg "START" "s1" (some 7)) c1Store).sessions.countP
        (fun d => d.dataSessionId == "s1")
      = c1Store.sessions.countP (fun d => d.dataSessionId == "s1") + 1 := by
  refine ⟨by decide, ?_⟩
  exact start_creates_duplicate_session "SN1" "u1" "s1" (tmsg "START" "s1" (some 7)) c1Store
    rfl rfl rfl (by decide) rfl (by decide)

/-- C10.  A device status response routed through the MQTT handler (which
never passes a user id) sends the status reply to the responding chat and
clears every pending status check whose key begins with that chat id —
all of this requester's pending checks, not only the one for the
responding user — while leaving other requesters' entries in place. -/
theorem mqtt_response_clears_all_pending_for_chat
    (data : Telemetry) (pend : PendingMap) (c : String)
    (hchat : data.chat_id = some c) (hcne : c.isEmpty = false) :
    (handle_telegram_response data true pend).2 = [(c, Msg.statusReply)]
    ∧ (∀ k e, (k, e) ∈ pend → k.startsWith (c ++ "_") = true →
        (k, e) ∉ (handle_telegram_response data true pend).1)
    ∧ (∀ k e, (k, e) ∈ pend → k.startsWith (c ++ "_") = false →
        (k, e) ∈ (handle_telegram_response data true pend).1) := by
  unfold handle_telegram_response
  rw [hchat]
  simp only [hcne, if_false, if_true, send_status_response]
  refine ⟨rfl, ?_, ?_⟩
  · intro k e _ hpre hmem2
    have := (List.mem_filter.mp hmem2).2
    simp only [hpre] at this
    exact absurd this (by simp)
  · intro k e hmem hnpre
    exact List.mem_filter.mpr ⟨hmem, by simp [hnpre]⟩

/-- C10 witness: a response from chat7's device removes both of chat7's
pending checks (u1 and u2), keeps chat8's, and sends the status reply. -/
theorem mqtt_response_clears_all_pending_for_chat_witness :
    (handle_telegram_response chat7Response true threePending).2 = [("chat7", Msg.statusReply)]
    ∧ (∀ k e, (k, e) ∈ threePending → k.startsWith ("chat7" ++ "_") = true →
        (k, e) ∉ (handle_telegram_response chat7Response true threePending).1)
    ∧ (∀ k e, (k, e) ∈ threePending → k.startsWith ("chat7" ++ "_") = false →
        (k, e) ∈ (handle_telegram_response chat7Response true threePending).1) := by
  exact mqtt_response_clears_all_pending_for_chat chat7Response threePending "chat7" rfl rfl

/-- C6.  When publishing the status request fails immediately, the
requester is told synchronously, no pending entry is registered and no
timeout watcher is started: the resulting Telegram state differs from the
initial one only by the processing message and the failure message. -/
theorem failed_publish_reports_and_registers_nothing
    (chatId uid : String) (ct : ContactDoc) (u : UserDoc) (dev : DeviceDoc)
    (ctx : MqttCtx) (s : Store) (st0 : TgState)
    (hct : find_emergency_contact_by_chat_id chatId s = some ct)
    (huid : ct.userId = some uid) (huidne : uid.isEmpty = false)
    (hu : get_user_info uid s = some u)
    (hdev : find_user_active_device uid s = some dev)
    (havail : ctx.available = true)
    (hpub : request_device_status ctx = false) :
    handle_check_status chatId ctx s st0
      = { st0 with
          sent := st0.sent ++ [(chatId, Msg.requesting), (chatId, Msg.requestFailed)] } := by
  unfold handle_check_status
  rw [hct]
  simp only [huid, huidne, Bool.false_eq_true, if_false, hu, hdev, havail, if_true, hpub]
  simp

/-- C6 witness: a /check_status from Carla (chat7) with a connected client
whose publish fails leaves the pending dict and timers empty and sends her
the failure message. -/
theorem failed_publish_reports_and_registers_nothing_witness :
    handle_check_status "chat7" ⟨true, true, false⟩ pairedStore ⟨[], [], []⟩
      = { pending := []
          sent := [("chat7", Msg.requesting), ("chat7", Msg.requestFailed)]
          timers := [] } := by
  exact failed_publish_reports_and_registers_nothing "chat7" "u1"
    ⟨"Carla", some "chat7", some "u1", true⟩ ⟨"u1", "Alice"⟩ ⟨"SN1", "SN1", "active"⟩
    ⟨true, true, false⟩ pairedStore ⟨[], [], []⟩ rfl rfl rfl rfl rfl rfl rfl

/-- C7 amended.  A well-formed telemetry message for a paired device
produces exactly one SessionEvent when its state is START, or when its
state is ACTIVE, END or INCIDENT and a session with its id exists —
including the no-op repeated-ACTIVE case; with an unknown state, or
ACTIVE / END / INCIDENT for a non-existent session, no event is
created. -/
theorem valid_telemetry_appends_one_event (serial uid sid st : String)
    (data : Telemetry) (s : Store)
    (hst : data.session_state = some st) (hsid : data.session_id = some sid)
    (hstne : st.isEmpty = false) (hsidne : sid.isEmpty = false)
    (hdev : (find_device_by_serial serial s).isSome = true)
    (hpair : get_user_from_device serial s = some uid)
    (hok : st = "START"
      ∨ ((st = "ACTIVE" ∨ st = "END" ∨ st = "INCIDENT")
          ∧ (find_session_by_id sid s).isSome = true)) :
    (handle_telemetry serial data s).events
      = s.events ++ [⟨sid, serial, data.alt⟩] := by
  obtain ⟨d, hd⟩ := Option.isSome_iff_exists.mp hdev
  have hcond : (st.isEmpty || sid.isEmpty) = false := by rw [hstne, hsidne]; rfl
  unfold handle_telemetry
  simp only [hst, hsid, hcond, Bool.false_eq_true, if_false, hd, hpair]
  rcases hok with rfl | ⟨hstates, hsess⟩
  · simp [handle_session_start]
  · obtain ⟨c, hc⟩ := Option.isSome_iff_exists.mp hsess
    rcases hstates with rfl | rfl | rfl
    · simp only [show (("ACTIVE" : String) == "START") = false from rfl,
        Bool.false_eq_true, if_false, show (("ACTIVE" : String) == "ACTIVE") = true from rfl,
        if_true]
      unfold handle_session_active
      rw [hc]
      by_cases hps : (c.profileState != "ACTIVE") = true
      · simp [hps, update_session]
      · simp only [Bool.not_eq_true] at hps
        simp [hps]
    · simp only [show (("END" : String) == "START") = false from rfl,
        show (("END" : String) == "ACTIVE") = false from rfl,
        show (("END" : String) == "END") = true from rfl,
        Bool.false_eq_true, if_false, if_true]
      unfold handle_session_end
      rw [hc]
      simp [update_session]
    · simp only [show (("INCIDENT" : String) == "START") = false from rfl,
        show (("INCIDENT" : String) == "ACTIVE") = false from rfl,
        show (("INCIDENT" : String) == "END") = false from rfl,
        show (("INCIDENT" : String) == "INCIDENT") = true from rfl,
        Bool.false_eq_true, if_false, if_true]
      unfold handle_session_incident
      rw [hc]
      simp [update_session]

/-- C7 amended witness: a repeated ACTIVE message for the already-ACTIVE
session s5 (a no-op state transition) still appends exactly one event. -/
theorem valid_telemetry_appends_one_event_witness :
    (handle_telemetry "SN1" (tmsg "ACTIVE" "s5" (some 41)) activeSessStore).events
      = activeSessStore.events ++ [⟨"s5", "SN1", some 41⟩] := by
  exact valid_telemetry_appends_one_event "SN1" "u1" "s5" "ACTIVE"
    (tmsg "ACTIVE" "s5" (some 41)) activeSessStore rfl rfl rfl rfl (by decide) rfl
    (Or.inr ⟨Or.inl rfl, by decide⟩)

/-- C4.  Processing START, ACTIVE, ACTIVE, END (in order, one session id,
paired device, no pre-existing session or events for that id) leaves the
session in state END, with its end altitude equal to the altitude of the
END message, and exactly 4 SessionEvents for that session id. -/
theorem start_active_active_end_final_state
    (serial uid sid : String) (m1 m2 m3 m4 : Telemetry) (s0 : Store)
    (h1s : m1.session_state = some "START") (h1i : m1.session_id = some sid)
    (h2s : m2.session_state = some "ACTIVE") (h2i : m2.session_id = some sid)
    (h3s : m3.session_state = some "ACTIVE") (h3i : m3.session_id = some sid)
    (h4s : m4.session_state = some "END") (h4i : m4.session_id = some sid)
    (hne : sid.isEmpty = false)
    (hdev : (find_device_by_serial serial s0).isSome = true)
    (hpair : get_user_from_device serial s0 = some uid)
    (hnosess : ∀ d ∈ s0.sessions, (d.dataSessionId == sid) = false)
    (hnoev : s0.events.countP (fun e => e.sessionId == sid) = 0) :
    ((find_session_by_id sid (handle_telemetry serial m4 (handle_telemetry serial m3
        (handle_telemetry serial m2 (handle_telemetry serial m1 s0))))).map
          fun d => (d.profileState, d.endAlt))
        = some ("END", m4.alt)
    ∧ (handle_telemetry serial m4 (handle_telemetry serial m3 (handle_telemetry serial m2
        (handle_telemetry serial m1 s0)))).events.countP (fun e => e.sessionId == sid)
        = 4 := by
  obtain ⟨dv, hdv⟩ := Option.isSome_iff_exists.mp hdev
  have hcondS : (("START" : String).isEmpty || sid.isEmpty) = false := by rw [hne]; rfl
  have hcondA : (("ACTIVE" : String).isEmpty || sid.isEmpty) = false := by rw [hne]; rfl
  have hcondE : (("END" : String).isEmpty || sid.isEmpty) = false := by rw [hne]; rfl
  -- the session document created by the START message and its two updates
  have e1 : handle_telemetry serial m1 s0
      = { s0 with
          sessions := s0.sessions ++
            [⟨freshSessionDocId s0, "START", sid, uid, serial, none, m1.alt, none, false⟩]
          events := s0.events ++ [⟨sid, serial, m1.alt⟩] } := by
    unfold handle_telemetry
    simp only [h1s, h1i, hcondS, Bool.false_eq_true, if_false, hdv, hpair,
      show (("START" : String) == "START") = true from rfl, if_true]
    simp [handle_session_start]
  have hg1 : ∀ d : SessionDoc,
      ((fun d => if d.docId == freshSessionDocId s0 then
          { d with profileState := "ACTIVE" } else d) d).dataSessionId
        = d.dataSessionId := by
    intro d
    by_cases h : (d.docId == freshSessionDocId s0) = true <;> simp [h]
  have hL1 : ∀ d ∈ s0.sessions.map (fun d =>
      if d.docId == freshSessionDocId s0 then { d with profileState := "ACTIVE" } else d),
      (d.dataSessionId == sid) = false :=
    no_sid_of_map s0.sessions _ sid hg1 hnosess
  have e2 : handle_telemetry serial m2
      { s0 with
        sessions := s0.sessions ++
          [⟨freshSessionDocId s0, "START", sid, uid, serial, none, m1.alt, none, false⟩]
        events := s0.events ++ [⟨sid, serial, m1.alt⟩] }
      = { s0 with
          sessions := (s0.sessions.map fun d =>
              if d.docId == freshSessionDocId s0 then
                { d with profileState := "ACTIVE" } else d)
            ++ [⟨freshSessionDocId s0, "ACTIVE", sid, uid, serial, none, m1.alt, none, false⟩]
          events := s0.events ++ [⟨sid, serial, m1.alt⟩] ++ [⟨sid, serial, m2.alt⟩] } := by
    exact handle_telemetry_active_updates serial uid sid m2
      { s0 with
        sessions := s0.sessions ++
          [⟨freshSessionDocId s0, "START", sid, uid, serial, none, m1.alt, none, false⟩]
        events := s0.events ++ [⟨sid, serial, m1.alt⟩] }
      s0.sessions
      ⟨freshSessionDocId s0, "START", sid, uid, serial, none, m1.alt, none, false⟩
      h2s h2i hne hdev hpair rfl hnosess rfl rfl
  have e3 : handle_telemetry serial m3
      { s0 with
        sessions := (s0.sessions.map fun d =>
            if d.docId == freshSessionDocId s0 then
              { d with profileState := "ACTIVE" } else d)
          ++ [⟨freshSessionDocId s0, "ACTIVE", sid, uid, serial, none, m1.alt, none, false⟩]
        events := s0.events ++ [⟨sid, serial, m1.alt⟩] ++ [⟨sid, serial, m2.alt⟩] }
      = { s0 with
          sessions := (s0.sessions.map fun d =>
              if d.docId == freshSessionDocId s0 then
                { d with profileState := "ACTIVE" } else d)
            ++ [⟨freshSessionDocId s0, "ACTIVE", sid, uid, serial, none, m1.alt, none, false⟩]
          events := s0.events ++ [⟨sid, serial, m1.alt⟩] ++ [⟨sid, serial, m2.alt⟩]
            ++ [⟨sid, serial, m3.alt⟩] } := by
    exact handle_telemetry_active_noop serial uid sid m3
      { s0 with
        sessions := (s0.sessions.map fun d =>
            if d.docId == freshSessionDocId s0 then
              { d with profileState := "ACTIVE" } else d)
          ++ [⟨freshSessionDocId s0, "ACTIVE", sid, uid, serial, none, m1.alt, none, false⟩]
        events := s0.events ++ [⟨sid, serial, m1.alt⟩] ++ [⟨sid, serial, m2.alt⟩] }
      (s0.sessions.map fun d =>
        if d.docId == freshSessionDocId s0 then { d with profileState := "ACTIVE" } else d)
      ⟨freshSessionDocId s0, "ACTIVE", sid, uid, serial, none, m1.alt, none, false⟩
      h3s h3i hne hdev hpair rfl hL1 rfl rfl
  have e4 : handle_telemetry serial m4
      { s0 with
        sessions := (s0.sessions.map fun d =>
            if d.docId == freshSessionDocId s0 then
              { d with profileState := "ACTIVE" } else d)
          ++ [⟨freshSessionDocId s0, "ACTIVE", sid, uid, serial, none, m1.alt, none, false⟩]
        events := s0.events ++ [⟨sid, serial, m1.alt⟩] ++ [⟨sid, serial, m2.alt⟩]
          ++ [⟨sid, serial, m3.alt⟩] }
      = { s0 with
          sessions := ((s0.sessions.map fun d =>
              if d.docId == freshSessionDocId s0 then
                { d with profileState := "ACTIVE" } else d).map fun d =>
              if d.docId == freshSessionDocId s0 then
                { d with profileState := "END", endAlt := m4.alt, endAtSet := true } else d)
            ++ [⟨freshSessionDocId s0, "END", sid, uid, serial, none, m1.alt, m4.alt, true⟩]
          events := s0.events ++ [⟨sid, serial, m1.alt⟩] ++ [⟨sid, serial, m2.alt⟩]
            ++ [⟨sid, serial, m3.alt⟩] ++ [⟨sid, serial, m4.alt⟩] } := by
    exact handle_telemetry_end_updates serial uid sid m4
      { s0 with
        sessions := (s0.sessions.map fun d =>
            if d.docId == freshSessionDocId s0 then
              { d with profileState := "ACTIVE" } else d)
          ++ [⟨freshSessionDocId s0, "ACTIVE", sid, uid, serial, none, m1.alt, none, false⟩]
        events := s0.events ++ [⟨sid, serial, m1.alt⟩] ++ [⟨sid, serial, m2.alt⟩]
          ++ [⟨sid, serial, m3.alt⟩] }
      (s0.sessions.map fun d =>
        if d.docId == freshSessionDocId s0 then { d with profileState := "ACTIVE" } else d)
      ⟨freshSessionDocId s0, "ACTIVE", sid, uid, serial, none, m1.alt, none, false⟩
      h4s h4i hne hdev hpair rfl hL1 rfl
  rw [e1, e2, e3, e4]
  constructor
  · have hg4 : ∀ d : SessionDoc,
        ((fun d => if d.docId == freshSessionDocId s0 then
            { d with profileState := "END", endAlt := m4.alt, endAtSet := true } else d)
          d).dataSessionId = d.dataSessionId := by
      intro d
      by_cases h : (d.docId == freshSessionDocId s0) = true <;> simp [h]
    have hfinal : find_session_by_id sid
        { s0 with
          sessions := ((s0.sessions.map fun d =>
              if d.docId == freshSessionDocId s0 then
                { d with profileState := "ACTIVE" } else d).map fun d =>
              if d.docId == freshSessionDocId s0 then
                { d with profileState := "END", endAlt := m4.alt, endAtSet := true } else d)
            ++ [⟨freshSessionDocId s0, "END", sid, uid, serial, none, m1.alt, m4.alt, true⟩]
          events := s0.events ++ [⟨sid, serial, m1.alt⟩] ++ [⟨sid, serial, m2.alt⟩]
            ++ [⟨sid, serial, m3.alt⟩] ++ [⟨sid, serial, m4.alt⟩] }
        = some ⟨freshSessionDocId s0, "END", sid, uid, serial, none, m1.alt, m4.alt, true⟩ :=
      find?_sid_append_single _ _ sid (no_sid_of_map _ _ sid hg4 hL1) rfl
    rw [hfinal]
    rfl
  · simp [List.countP_append, List.countP_cons, hnoev]

/-- C4 witness: the concrete run START(100), ACTIVE(150), ACTIVE(180),
END(210) for session s1 on the paired device SN1 ends with the session in
END, end altitude 210 and 4 events. -/
theorem start_active_active_end_final_state_witness :
    ((find_session_by_id "s1" (handle_telemetry "SN1" (tmsg "END" "s1" (some 210))
        (handle_telemetry "SN1" (tmsg "ACTIVE" "s1" (some 180))
          (handle_telemetry "SN1" (tmsg "ACTIVE" "s1" (some 150))
            (handle_telemetry "SN1" (tmsg "START" "s1" (some 100)) pairedStore))))).map
          fun d => (d.profileState, d.endAlt))
        = some ("END", some 210)
    ∧ (handle_telemetry "SN1" (tmsg "END" "s1" (some 210))
        (handle_telemetry "SN1" (tmsg "ACTIVE" "s1" (some 180))
          (handle_telemetry "SN1" (tmsg "ACTIVE" "s1" (some 150))
            (handle_telemetry "SN1" (tmsg "START" "s1" (some 100))
              pairedStore)))).events.countP (fun e => e.sessionId == "s1") = 4 := by
  exact start_active_active_end_final_state "SN1" "u1" "s1"
    (tmsg "START" "s1" (some 100)) (tmsg "ACTIVE" "s1" (some 150))
    (tmsg "ACTIVE" "s1" (some 180)) (tmsg "END" "s1" (some 210)) pairedStore
    rfl rfl rfl rfl rfl rfl rfl rfl rfl rfl rfl (by decide) rfl
